import Mathlib

/-!
Shallow embedding of the native tracking engine (`src/tracker.py`,
class `NativeTracker`) and of the transport layer's pending-call
bookkeeping (`src/bridge/tracker_bridge.py`, class `TrackerBridge`).

Python floats are modelled as exact rationals (all constants in the
source are short decimals), byte buffers as lists of naturals, and the
opaque OpenCV calls (`TrackerCSRT_create`/`update`,
`calcOpticalFlowPyrLK`, `goodFeaturesToTrack`) as an explicit
environment record `Env` supplied to each operation.
-/

/-- A 2-D point with rational coordinates, mirroring the `{'x': .., 'y': ..}`
dicts used throughout `tracker.py`. -/
structure Point where
  x : ℚ
  y : ℚ
deriving DecidableEq, Repr

/-- A decoded grayscale frame: `np.frombuffer(...).reshape((height, width))`.
`data` is the row-major pixel buffer. -/
structure Frame where
  width : ℕ
  height : ℕ
  data : List ℕ
deriving DecidableEq, Repr

/-- `decode_frame` (tracker.py line 70): base64-decode then reshape to
`(height, width)`; the reshape raises unless the buffer holds exactly
`width*height` bytes, modelled as `none`. -/
def decodeFrame (frameData : List ℕ) (width height : ℕ) : Option Frame :=
  if frameData.length = width * height then
    some { width := width, height := height, data := frameData }
  else
    none

/-- Python's `int()` applied to a float: truncation toward zero. -/
def pyInt (q : ℚ) : ℤ :=
  if 0 ≤ q then ⌊q⌋ else ⌈q⌉

/-- Python's `round(x, 3)`: rounding to 3 decimal places. Every call site in
`tracker.py` passes an exact multiple of 1/1000 (0.9 or 0.95), so the
tie-breaking convention is irrelevant here. -/
def round3 (q : ℚ) : ℚ :=
  (round (q * 1000) : ℚ) / 1000

/-- The numpy slice `gray[ry:ry+rh, rx:rx+rw]` (with the clamping behaviour of
Python slicing at the buffer edges). -/
def roiSlice (f : Frame) (rx ry rw rh : ℤ) : Frame :=
  { width := rw.toNat
    height := rh.toNat
    data := ((List.range rh.toNat).map
      (fun r => ((f.data.drop ((ry.toNat + r) * f.width + rx.toNat)).take rw.toNat))).flatten }

/-- State of one CSRT tracker object. `initFrame`/`initBbox` record the
arguments of `TrackerCSRT_create()` + `init(frame_bgr, bbox)` (tracker.py
lines 93-94); `internal` stands for the tracker's opaque mutable
appearance model, evolved by the environment on each `update`. -/
structure CsrtState where
  initFrame : Frame
  initBbox : ℤ × ℤ × ℤ × ℤ
  internal : ℕ
deriving DecidableEq, Repr

/-- Environment record standing for the OpenCV library calls, which are
external to the repository. Each field is a deterministic function of the
full call arguments.

`csrtUpdate` models `self.csrt_tracker.update(frame_bgr)`: the returned
`Option` is the `(csrt_ok, bbox)` pair (`none` when `csrt_ok` is false),
and the second component is the tracker object after its in-place mutation.

`lkFlow` models `cv2.calcOpticalFlowPyrLK(prev, next, points, None,
winSize=(win,win), maxLevel=3, criteria=(EPS|COUNT, 30, 0.01))`: the
result pairs each input point's `next_points` entry with its `status`
flag; `none` stands for the `status is None or next_points is None` case.

`goodFeatures` models `cv2.goodFeaturesToTrack(roi, maxCorners,
qualityLevel, minDistance, blockSize=3, useHarrisDetector=False, k=0.04)`,
returning `none` when no corners are found. -/
structure Env where
  csrtUpdate : CsrtState → Frame → (Option (ℚ × ℚ × ℚ × ℚ)) × CsrtState
  lkFlow : Frame → Frame → List Point → ℤ → Option (List (Point × Bool))
  goodFeatures : Frame → ℕ → ℚ → ℚ → Option (List Point)

/-- OpenCV's documented contract for `goodFeaturesToTrack`: it returns at
most `maxCorners` corners. -/
def GoodFeaturesBounded (env : Env) : Prop :=
  ∀ roi maxCorners quality minDist pts,
    env.goodFeatures roi maxCorners quality minDist = some pts →
    pts.length ≤ maxCorners

/-- The mutable fields of `NativeTracker` (tracker.py lines 34-64).
`tracking_points` is the `N×1×2` float array flattened to a point list;
`lk_win` is the `winSize` entry of `lk_params` (the other entries are
constants, absorbed into `Env.lkFlow`). -/
structure TrackerState where
  is_tracking : Bool
  frame_count : ℕ
  frame_width : ℕ
  frame_height : ℕ
  template_size : ℤ
  tracking_scale : ℚ
  csrt_tracker : Option CsrtState
  prev_gray : Option Frame
  tracking_points : Option (List Point)
  good_points_indices : List ℕ
  max_points : ℕ
  min_points : ℕ
  quality_level : ℚ
  min_distance : ℚ
  lk_win : ℤ
  last_valid_center : Option Point
  out_of_bounds_count : ℕ
  max_out_of_bounds : ℕ
deriving DecidableEq, Repr

/-- `NativeTracker.__init__` (tracker.py lines 34-64). -/
def initState : TrackerState :=
  { is_tracking := false
    frame_count := 0
    frame_width := 0
    frame_height := 0
    template_size := 40
    tracking_scale := 1
    csrt_tracker := none
    prev_gray := none
    tracking_points := none
    good_points_indices := []
    max_points := 15
    min_points := 3
    quality_level := 1/100
    min_distance := 7
    lk_win := 21
    last_valid_center := none
    out_of_bounds_count := 0
    max_out_of_bounds := 10 }

/-- `_get_roi_size` (tracker.py line 66): `max(40, template_size)`. -/
def getRoiSize (templateSize : ℤ) : ℤ :=
  max 40 templateSize

/-- `_make_roi_bbox` (tracker.py line 75): the `(x, y, w, h)` ROI tuple
centered on `(cx, cy)` within the frame bounds. -/
def makeRoiBbox (templateSize : ℤ) (cx cy : ℚ) (w h : ℕ) : ℤ × ℤ × ℤ × ℤ :=
  let roiSize := getRoiSize templateSize
  let rx := pyInt (max 0 (cx - (roiSize : ℚ)))
  let ry := pyInt (max 0 (cy - (roiSize : ℚ)))
  let rw := min ((w : ℤ) - rx) (roiSize * 2)
  let rh := min ((h : ℤ) - ry) (roiSize * 2)
  (rx, ry, rw, rh)

/-- `_init_csrt` (tracker.py line 84): create a fresh CSRT tracker and
initialize it with a ROI around the center point. The GRAY→BGR conversion
is a pure representation change and is kept implicit. -/
def initCsrt (templateSize : ℤ) (gray : Frame) (cx cy : ℚ) : CsrtState :=
  { initFrame := gray
    initBbox := makeRoiBbox templateSize cx cy gray.width gray.height
    internal := 0 }

/-- `_init_lk_points` (tracker.py line 96): find good features around the
center point; falls back to one synthetic point at `(cx, cy)` when the ROI
is degenerate or no corners are found. Returns the new `tracking_points`
list and the new `good_points_indices`. -/
def initLkPoints (env : Env) (templateSize : ℤ) (maxPoints : ℕ)
    (qualityLevel minDistance : ℚ) (gray : Frame) (cx cy : ℚ) :
    List Point × List ℕ :=
  let roiSize := getRoiSize templateSize
  let rx := pyInt (max 0 (cx - (roiSize : ℚ)))
  let ry := pyInt (max 0 (cy - (roiSize : ℚ)))
  let rw := min ((gray.width : ℤ) - rx) (roiSize * 2)
  let rh := min ((gray.height : ℤ) - ry) (roiSize * 2)
  if rw ≤ 0 ∨ rh ≤ 0 then
    ([⟨cx, cy⟩], [0])
  else
    let roi := roiSlice gray rx ry rw rh
    match env.goodFeatures roi maxPoints qualityLevel minDistance with
    | some corners =>
      if corners.length > 0 then
        (corners.map (fun p => ⟨p.x + (rx : ℚ), p.y + (ry : ℚ)⟩),
         List.range corners.length)
      else
        ([⟨cx, cy⟩], [0])
    | none => ([⟨cx, cy⟩], [0])

/-- `_lk_center` (tracker.py line 135): per-axis selection of the sorted
coordinate at index `len // 2` from a list of points. -/
def lkCenterFn (points : List Point) : Option Point :=
  match points with
  | [] => none
  | [p] => some p
  | _ =>
    let xCoords := (points.map Point.x).insertionSort (· ≤ ·)
    let yCoords := (points.map Point.y).insertionSort (· ≤ ·)
    some ⟨xCoords.getD (xCoords.length / 2) 0, yCoords.getD (yCoords.length / 2) 0⟩

/-- Fields of the `start_tracking` request message (tracker.py lines 151-154,
163-164): `msg.get('trackingScale', 1.0)` / `msg.get('templateSize', 40)`
are modelled by `Option` fields. -/
structure StartMsg where
  frameData : List ℕ
  width : ℕ
  height : ℕ
  trackingPoint : Point
  trackingScale : Option ℚ
  templateSize : Option ℤ

/-- Fields of the `process_frame` request message (tracker.py lines 192-194). -/
structure ProcessMsg where
  frameData : List ℕ
  width : ℕ
  height : ℕ

/-- Result dict of `start_tracking` (tracker.py lines 181-185). -/
structure StartResult where
  success : Bool
  method : String
  pointCount : ℕ
deriving DecidableEq, Repr

/-- Result dict of `process_frame`: either the early `{'success': False,
'error': ...}` or one of the three `{'success': True, 'trackingSpacePoint':
..., 'method': ..., 'confidence': ...}` shapes. -/
inductive ProcResult where
  | failure (error : String)
  | success (trackingSpacePoint : Point) (method : String) (confidence : ℚ)
deriving DecidableEq, Repr

/-- `start_tracking` (tracker.py lines 149-185). A decode failure (frame
buffer length ≠ width*height) raises in Python before any state is touched;
it is modelled as `Except.error`. -/
def startTracking (env : Env) (s : TrackerState) (msg : StartMsg) :
    Except String (StartResult × TrackerState) :=
  match decodeFrame msg.frameData msg.width msg.height with
  | none => .error "cannot reshape frame buffer"
  | some gray =>
    let templateSize := msg.templateSize.getD 40
    let win := max 15 (min 31 (pyInt ((templateSize : ℚ) / 2)))
    let px := msg.trackingPoint.x
    let py := msg.trackingPoint.y
    let lk := initLkPoints env templateSize s.max_points s.quality_level
      s.min_distance gray px py
    let s' : TrackerState :=
      { s with
        is_tracking := true
        frame_count := 0
        out_of_bounds_count := 0
        frame_width := msg.width
        frame_height := msg.height
        tracking_scale := msg.trackingScale.getD 1
        template_size := templateSize
        lk_win := win
        csrt_tracker := some (initCsrt templateSize gray px py)
        tracking_points := some lk.1
        good_points_indices := lk.2
        prev_gray := some gray
        last_valid_center := some ⟨px, py⟩ }
    .ok ({ success := true, method := "csrt", pointCount := lk.1.length }, s')

/-- The primary-estimator block of `process_frame` (tracker.py lines
198-211): advance the CSRT tracker and derive the bbox centroid on success.
Returns `(csrt_center, mutated tracker object)`; `csrt_ok` is true exactly
when the first component is `some`. -/
def csrtEstimate (env : Env) (s : TrackerState) (nextGray : Frame) :
    Option Point × Option CsrtState :=
  match s.csrt_tracker with
  | none => (none, none)
  | some t =>
    let (res, t') := env.csrtUpdate t nextGray
    match res with
    | none => (none, some t')
    | some (bx, by_, bw, bh) => (some ⟨bx + bw / 2, by_ + bh / 2⟩, some t')

/-- Output of the secondary-estimator block of `process_frame`:
`center` is `lk_center`, `survivors` the `good_points` list, `indices` the
final `good_points_indices`, `points` the (in-place updated)
`tracking_points`. -/
structure LkOut where
  center : Option Point
  survivors : List Point
  indices : List ℕ
  points : Option (List Point)

/-- One iteration of the inner loop of the secondary-estimator block
(tracker.py lines 233-244): skip indices past the end of the status array
or with status ≠ 1, keep points that stay inside the frame, and update
`tracking_points` in place. The accumulator is
`(good_points, new_good_indices, tracking_points)`. -/
def lkLoopStep (flow : List (Point × Bool)) (width height : ℕ)
    (acc : List Point × List ℕ × List Point) (idx : ℕ) :
    List Point × List ℕ × List Point :=
  match flow.get? idx with
  | none => acc
  | some (p, st) =>
    if st = false then acc
    else if 0 ≤ p.x ∧ p.x < (width : ℚ) ∧ 0 ≤ p.y ∧ p.y < (height : ℚ) then
      (acc.1 ++ [p], acc.2.1 ++ [idx], acc.2.2.set idx p)
    else acc

/-- The inner loop of the secondary-estimator block (tracker.py lines
229-244): fold `lkLoopStep` over `good_points_indices`. -/
def lkLoop (flow : List (Point × Bool)) (width height : ℕ) (indices : List ℕ)
    (trackingPoints : List Point) : List Point × List ℕ × List Point :=
  indices.foldl (lkLoopStep flow width height) ([], [], trackingPoints)

/-- The secondary-estimator block of `process_frame` (tracker.py lines
213-248). The guard requires a previous frame, a point set, at least
`min_points` currently-valid indices and matching frame shapes. -/
def lkEstimate (env : Env) (s : TrackerState) (nextGray : Frame)
    (width height : ℕ) : LkOut :=
  match s.prev_gray, s.tracking_points with
  | some prevGray, some trackingPoints =>
    if s.good_points_indices.length ≥ s.min_points ∧
        nextGray.width = prevGray.width ∧ nextGray.height = prevGray.height then
      match env.lkFlow prevGray nextGray trackingPoints s.lk_win with
      | none =>
        { center := none, survivors := [], indices := s.good_points_indices
          points := some trackingPoints }
      | some flow =>
        let r := lkLoop flow width height s.good_points_indices trackingPoints
        if r.1.length ≥ s.min_points then
          { center := lkCenterFn r.1, survivors := r.1, indices := r.2.1
            points := some r.2.2 }
        else
          { center := none, survivors := r.1, indices := s.good_points_indices
            points := some r.2.2 }
    else
      { center := none, survivors := [], indices := s.good_points_indices
        points := some trackingPoints }
  | _, _ =>
    { center := none, survivors := [], indices := s.good_points_indices
      points := s.tracking_points }

/-- The periodic-refresh guard of `process_frame` (tracker.py line 311):
`self.frame_count > 0 and self.frame_count % 30 == 0 and
self.last_valid_center`, evaluated before the frame counter increments. -/
def periodicRefreshDue (frameCount : ℕ) (lastValidCenter : Option Point) : Bool :=
  decide (frameCount > 0) && decide (frameCount % 30 = 0) && lastValidCenter.isSome

/-- The tail of `process_frame` (tracker.py lines 310-316): the periodic
LK re-seed around `lastValidCenter` every 30 frames, then the
`prev_gray` / `frame_count` update. -/
def finishFrame (env : Env) (nextGray : Frame) (s1 : TrackerState) :
    TrackerState :=
  let s2 : TrackerState :=
    if periodicRefreshDue s1.frame_count s1.last_valid_center then
      match s1.last_valid_center with
      | some c =>
        let lkInit := initLkPoints env s1.template_size s1.max_points
          s1.quality_level s1.min_distance nextGray c.x c.y
        { s1 with tracking_points := some lkInit.1
                  good_points_indices := lkInit.2 }
      | none => s1
    else s1
  { s2 with prev_gray := some nextGray, frame_count := s2.frame_count + 1 }

/-- `process_frame` (tracker.py lines 187-318). Mirrors the source block by
block: early not-tracking failure, frame decode, primary estimator
(`csrtEstimate`), secondary estimator (`lkEstimate`), the three-way fusion,
the periodic LK refresh, and the final `prev_gray`/`frame_count` update.
A decode failure raises in Python (caught by the top-level loop), modelled
as `Except.error`. -/
def processFrame (env : Env) (s : TrackerState) (msg : ProcessMsg) :
    Except String (ProcResult × TrackerState) :=
  if s.is_tracking = false then
    .ok (.failure "Not tracking", s)
  else
    match decodeFrame msg.frameData msg.width msg.height with
    | none => .error "cannot reshape frame buffer"
    | some nextGray =>
      let prim := csrtEstimate env s nextGray
      let lk := lkEstimate env s nextGray msg.width msg.height
      let s0 : TrackerState :=
        { s with csrt_tracker := prim.2, tracking_points := lk.points
                 good_points_indices := lk.indices }
      let fused : ProcResult × TrackerState :=
        match prim.1 with
        | some csrtCenter =>
          match lk.center with
          | some lc =>
            let center : Point :=
              ⟨csrtCenter.x * (7/10) + lc.x * (3/10),
               csrtCenter.y * (7/10) + lc.y * (3/10)⟩
            (.success center "csrt_lk_fused" (round3 (19/20)),
             { s0 with last_valid_center := some center, out_of_bounds_count := 0 })
          | none =>
            (.success csrtCenter "csrt" (round3 (9/10)),
             { s0 with last_valid_center := some csrtCenter, out_of_bounds_count := 0 })
        | none =>
          match lk.center with
          | some lc =>
            (.success lc "lk_fallback" (6/10),
             { s0 with last_valid_center := some lc, out_of_bounds_count := 0
                       csrt_tracker := some (initCsrt s0.template_size nextGray lc.x lc.y) })
          | none =>
            let oob := s.out_of_bounds_count + 1
            let center := s.last_valid_center.getD
              ⟨(msg.width : ℚ) / 2, (msg.height : ℚ) / 2⟩
            let res : ProcResult :=
              .success center "fallback_last_valid"
                (max (1/10) (1/2 - (oob : ℚ) * (1/20)))
            match s.last_valid_center with
            | some c =>
              let lkInit := initLkPoints env s0.template_size s0.max_points
                s0.quality_level s0.min_distance nextGray c.x c.y
              (res, { s0 with out_of_bounds_count := oob
                              csrt_tracker := some (initCsrt s0.template_size nextGray c.x c.y)
                              tracking_points := some lkInit.1
                              good_points_indices := lkInit.2 })
            | none => (res, { s0 with out_of_bounds_count := oob })
      .ok (fused.1, finishFrame env nextGray fused.2)

/-- `stop_tracking` (tracker.py lines 320-329). -/
def stopTracking (s : TrackerState) : TrackerState :=
  { s with is_tracking := false
           csrt_tracker := none
           prev_gray := none
           tracking_points := none
           good_points_indices := []
           last_valid_center := none
           out_of_bounds_count := 0
           frame_count := 0 }

/-- `cleanup` (tracker.py lines 331-333): delegates to `stop_tracking`. -/
def cleanupTracker (s : TrackerState) : TrackerState :=
  stopTracking s

/-- Folding `process_frame` over a list of requests, for statements about
call sequences. Stops at the first raised exception. -/
def runFrames (env : Env) (s : TrackerState) : List ProcessMsg →
    Except String TrackerState
  | [] => .ok s
  | m :: ms =>
    match processFrame env s m with
    | .ok (_, s') => runFrames env s' ms
    | .error e => .error e

/-- States of the tracker reachable from `__init__` by any sequence of
`start_tracking`, `process_frame`, `stop_tracking` and `cleanup` calls,
with arbitrary messages, under a fixed environment. Calls that raise
(decode failures) leave the Python object unchanged, so they add no new
states. -/
inductive Reachable (env : Env) : TrackerState → Prop where
  | init : Reachable env initState
  | start {s msg r s'} : Reachable env s →
      startTracking env s msg = .ok (r, s') → Reachable env s'
  | process {s msg r s'} : Reachable env s →
      processFrame env s msg = .ok (r, s') → Reachable env s'
  | stop {s} : Reachable env s → Reachable env (stopTracking s)
  | cleanup {s} : Reachable env s → Reachable env (cleanupTracker s)

/-!
Transport layer: the pending-call table of `TrackerBridge`
(`src/bridge/tracker_bridge.py`). The dict `self._pending` is keyed by
integer request ids plus the reserved string key `"__startup__"`; futures
are the asyncio futures callers await.
-/

/-- A key of the `self._pending` dict: an integer request id or the
reserved `"__startup__"` slot. -/
inductive PendKey where
  | startup : PendKey
  | rid (n : ℕ) : PendKey
deriving DecidableEq, Repr

/-- Observable state of one asyncio future. `cancelled` is the state
`asyncio.wait_for` leaves the inner future in after a timeout. -/
inductive FutureState where
  | pending : FutureState
  | resolved (v : String) : FutureState
  | failed (e : String) : FutureState
  | cancelled : FutureState
deriving DecidableEq, Repr

/-- A future is done when it is no longer pending (`future.done()`). -/
def FutureState.done : FutureState → Bool
  | .pending => false
  | _ => true

/-- The bridge fields the pending-table logic touches
(tracker_bridge.py lines 15-22). `futures` tracks every future ever
created, keyed like the table; `inTable` is membership in `self._pending`;
`processAlive` stands for the worker subprocess being alive. -/
structure BridgeState where
  processAlive : Bool
  isReady : Bool
  requestId : ℕ
  futures : PendKey → Option FutureState
  inTable : PendKey → Bool

/-- The registration half of `send_command` (tracker_bridge.py lines
165-170): allocate the next request id, create a fresh pending future and
insert it into the table. Returns the id used. -/
def sendRegister (b : BridgeState) : ℕ × BridgeState :=
  (b.requestId,
   { b with
     requestId := b.requestId + 1
     futures := fun k => if k = .rid b.requestId then some .pending else b.futures k
     inTable := fun k => if k = .rid b.requestId then true else b.inTable k })

/-- The `asyncio.TimeoutError` handler of `send_command` (tracker_bridge.py
lines 181-183): `self._pending.pop(rid, None)` removes the table entry
(and `asyncio.wait_for` has cancelled the future); the handler raises the
timeout error, returned here as a string. Nothing else is touched — in
particular the worker process is not terminated. -/
def sendTimeout (b : BridgeState) (rid : ℕ) (command : String) (timeout : ℚ) :
    BridgeState × String :=
  ({ b with
     inTable := fun k => if k = .rid rid then false else b.inTable k
     futures := fun k =>
       if k = .rid rid then
         match b.futures k with
         | some .pending => some .cancelled
         | v => v
       else b.futures k },
   "Tracker command timeout (" ++ toString timeout ++ "s): " ++ command)

/-- The `finally` block of `_read_stdout` (tracker_bridge.py lines
117-122), reached when the worker's stdout closes or the reader errors:
mark not ready, fail every not-done pending future with
"Tracker process ended", and clear the table. -/
def readStdoutFinally (b : BridgeState) : BridgeState :=
  { b with
    isReady := false
    futures := fun k =>
      if b.inTable k = true ∧ b.futures k = some .pending then
        some (.failed "Tracker process ended")
      else b.futures k
    inTable := fun _ => false }

/-!
Concrete fixtures used by the witness theorems: tiny frames, messages,
environments and states on which the operations evaluate by `decide`/`rfl`.
-/

/-- Environment in which every external OpenCV call fails or finds nothing. -/
def envNone : Env :=
  { csrtUpdate := fun t _ => (none, t)
    lkFlow := fun _ _ _ _ => none
    goodFeatures := fun _ _ _ _ => none }

/-- Environment in which the CSRT update always succeeds with bbox
`(0, 0, 4, 4)` and the optical-flow call reports every point unmoved and
valid. -/
def envTrackOk : Env :=
  { csrtUpdate := fun t _ => (some (0, 0, 4, 4), t)
    lkFlow := fun _ _ pts _ => some (pts.map (fun p => (p, true)))
    goodFeatures := fun _ _ _ _ => none }

/-- A 2×2 all-black frame buffer as a `process_frame` message. -/
def pm2 : ProcessMsg := { frameData := [0, 0, 0, 0], width := 2, height := 2 }

/-- A 4×4 all-black frame buffer as a `process_frame` message. -/
def pm4 : ProcessMsg := { frameData := List.replicate 16 0, width := 4, height := 4 }

/-- A 2×2 `start_tracking` message seeding the point `(1, 1)`. -/
def sm2 : StartMsg :=
  { frameData := [0, 0, 0, 0], width := 2, height := 2
    trackingPoint := ⟨1, 1⟩, trackingScale := none, templateSize := none }

/-- An active session holding one flow point, as left by a `start_tracking`
call on a 2×2 frame. -/
def sampleActive : TrackerState :=
  { initState with
      is_tracking := true
      frame_width := 2
      frame_height := 2
      csrt_tracker := some ⟨⟨2, 2, [0, 0, 0, 0]⟩, (0, 0, 2, 2), 0⟩
      prev_gray := some ⟨2, 2, [0, 0, 0, 0]⟩
      tracking_points := some [⟨1, 1⟩]
      good_points_indices := [0]
      last_valid_center := some ⟨1, 1⟩ }

/-- An active session on 4×4 frames with three valid flow points. -/
def sampleActive3 : TrackerState :=
  { initState with
      is_tracking := true
      frame_width := 4
      frame_height := 4
      csrt_tracker := some ⟨⟨4, 4, List.replicate 16 0⟩, (0, 0, 4, 4), 0⟩
      prev_gray := some ⟨4, 4, List.replicate 16 0⟩
      tracking_points := some [⟨1, 1⟩, ⟨1, 2⟩, ⟨2, 1⟩]
      good_points_indices := [0, 1, 2]
      last_valid_center := some ⟨1, 1⟩ }

/-- An active session on 16×16 frames holding four flow points whose
coordinates have distinct mean, conventional median and upper-middle
element. -/
def sampleActive4 : TrackerState :=
  { initState with
      is_tracking := true
      frame_width := 16
      frame_height := 16
      csrt_tracker := some ⟨⟨16, 16, List.replicate 256 0⟩, (0, 0, 16, 16), 0⟩
      prev_gray := some ⟨16, 16, List.replicate 256 0⟩
      tracking_points := some [⟨0, 0⟩, ⟨1, 1⟩, ⟨2, 2⟩, ⟨10, 10⟩]
      good_points_indices := [0, 1, 2, 3]
      last_valid_center := some ⟨1, 1⟩ }

/-- `sampleActive` with the frame counter at 30, about to trigger the
periodic refresh. -/
def sampleActive30 : TrackerState :=
  { sampleActive with frame_count := 30 }

/-- The state produced by `start_tracking` on `sm2` from the fresh tracker
under `envNone`. -/
def startedState : TrackerState :=
  match startTracking envNone initState sm2 with
  | .ok (_, s) => s
  | .error _ => initState

/-- The result produced by that same `start_tracking` call. -/
def startedResult : StartResult :=
  match startTracking envNone initState sm2 with
  | .ok (r, _) => r
  | .error _ => { success := false, method := "", pointCount := 0 }

/-- A bridge state with one pending request (id 0) and the startup slot
already resolved. -/
def cBridge : BridgeState :=
  { processAlive := true
    isReady := true
    requestId := 1
    futures := fun k =>
      if k = .rid 0 then some .pending
      else if k = .startup then some (.resolved "startup") else none
    inTable := fun k => k = .rid 0 }

/-- The tracker state after the both-estimators-failed `process_frame` call
`processFrame envNone sampleActive pm2`. -/
def c1Post : TrackerState :=
  match processFrame envNone sampleActive pm2 with
  | .ok (_, s) => s
  | .error _ => initState

/-- The tracker state after the `process_frame` call on `sampleActive30`
(frame counter 30) that triggers the periodic refresh. -/
def c4Post : TrackerState :=
  match processFrame envNone sampleActive30 pm2 with
  | .ok (_, s) => s
  | .error _ => initState

/-- The tracker state after the primary-only `process_frame` call
`processFrame envTrackOk sampleActive pm2`. -/
def c2PostA : TrackerState :=
  match processFrame envTrackOk sampleActive pm2 with
  | .ok (_, s) => s
  | .error _ => initState

/-- The tracker state after the fused `process_frame` call
`processFrame envTrackOk sampleActive3 pm4`. -/
def c2PostB : TrackerState :=
  match processFrame envTrackOk sampleActive3 pm4 with
  | .ok (_, s) => s
  | .error _ => initState

/-- Modelled from the spec: the conventional median of a list of values —
the middle element of the sorted list for odd length, the average of the
two middle elements for even length. The spec prescribes the "per-axis
median" for the secondary center without further qualification. -/
def specMedian (l : List ℚ) : ℚ :=
  let s := l.insertionSort (· ≤ ·)
  if l.length % 2 = 1 then s.getD (l.length / 2) 0
  else (s.getD (l.length / 2 - 1) 0 + s.getD (l.length / 2) 0) / 2

/-- The arithmetic mean of a list of values. -/
def listMean (l : List ℚ) : ℚ :=
  l.sum / l.length

/-- Inductive invariant of the tracker state: the configuration constants
keep their `__init__` values, the valid-flow-point count never exceeds
`max_points = 15`, the point array never exceeds 15 entries, and while a
session is active `last_valid_center` is set and the point array is
non-empty. -/
def TrackerInv (s : TrackerState) : Prop :=
  s.max_points = 15 ∧
  s.min_points = 3 ∧
  s.good_points_indices.length ≤ 15 ∧
  (∀ l, s.tracking_points = some l → l.length ≤ 15) ∧
  (s.is_tracking = true →
    s.last_valid_center.isSome = true ∧
    ∃ l, s.tracking_points = some l ∧ 0 < l.length)

/-!
Theorems for the claims, with shared helper lemmas first.
-/

/-- On an idle session `process_frame` returns the early failure and changes
nothing (tracker.py lines 189-190). -/
theorem processFrame_idle (env : Env) (s : TrackerState) (msg : ProcessMsg)
    (h : s.is_tracking = false) :
    processFrame env s msg = .ok (.failure "Not tracking", s) := by
  simp [processFrame, h]

/-- The frame tail (`finishFrame`) preserves every field except
`prev_gray`, `frame_count`, `tracking_points` and `good_points_indices`,
and increments the frame counter by exactly one. -/
theorem finishFrame_fields (env : Env) (fr : Frame) (s1 : TrackerState) :
    (finishFrame env fr s1).is_tracking = s1.is_tracking ∧
    (finishFrame env fr s1).frame_count = s1.frame_count + 1 ∧
    (finishFrame env fr s1).max_points = s1.max_points ∧
    (finishFrame env fr s1).min_points = s1.min_points ∧
    (finishFrame env fr s1).template_size = s1.template_size ∧
    (finishFrame env fr s1).quality_level = s1.quality_level ∧
    (finishFrame env fr s1).min_distance = s1.min_distance ∧
    (finishFrame env fr s1).last_valid_center = s1.last_valid_center ∧
    (finishFrame env fr s1).out_of_bounds_count = s1.out_of_bounds_count ∧
    (finishFrame env fr s1).csrt_tracker = s1.csrt_tracker ∧
    (finishFrame env fr s1).prev_gray = some fr ∧
    (finishFrame env fr s1).frame_width = s1.frame_width ∧
    (finishFrame env fr s1).frame_height = s1.frame_height := by
  rw [finishFrame]
  split
  · split <;>
      exact ⟨rfl, rfl, rfl, rfl, rfl, rfl, rfl, rfl, rfl, rfl, rfl, rfl, rfl⟩
  · exact ⟨rfl, rfl, rfl, rfl, rfl, rfl, rfl, rfl, rfl, rfl, rfl, rfl, rfl⟩

/-- When the periodic-refresh guard holds, the frame tail re-seeds the
flow points around `lastValidCenter`. -/
theorem finishFrame_refresh (env : Env) (fr : Frame) (s1 : TrackerState)
    (c : Point) (hc : s1.last_valid_center = some c)
    (hdue : periodicRefreshDue s1.frame_count s1.last_valid_center = true) :
    (finishFrame env fr s1).tracking_points =
      some (initLkPoints env s1.template_size s1.max_points s1.quality_level
        s1.min_distance fr c.x c.y).1 ∧
    (finishFrame env fr s1).good_points_indices =
      (initLkPoints env s1.template_size s1.max_points s1.quality_level
        s1.min_distance fr c.x c.y).2 := by
  have hdue' : periodicRefreshDue s1.frame_count (some c) = true := by
    rw [← hc]
    exact hdue
  simp only [finishFrame, hc, hdue', if_true]
  exact ⟨by trivial, by trivial⟩

/-- On an active session with a decodable frame, `process_frame` always
returns a success result: every arm of the fusion policy builds a
`success` dict. -/
theorem processFrame_active_success (env : Env) (s : TrackerState)
    (msg : ProcessMsg) (fr : Frame) (ht : s.is_tracking = true)
    (hd : decodeFrame msg.frameData msg.width msg.height = some fr) :
    ∃ c m conf s', processFrame env s msg = .ok (.success c m conf, s') := by
  rw [processFrame]
  rw [ht]
  simp only [Bool.true_eq_false, if_false]
  rw [hd]
  rcases hp : (csrtEstimate env s fr).1 with _ | cc <;>
    rcases hl : (lkEstimate env s fr msg.width msg.height).center with _ | lc <;>
      simp only [hp, hl]
  · rcases hv : s.last_valid_center with _ | c <;> simp only [hv] <;>
      exact ⟨_, _, _, _, rfl⟩
  · exact ⟨_, _, _, _, rfl⟩
  · exact ⟨_, _, _, _, rfl⟩
  · exact ⟨_, _, _, _, rfl⟩

/-- A failure result from `process_frame` can only come from the early
not-tracking arm: the session was idle, the error is "Not tracking", and
the state is returned untouched. -/
theorem processFrame_failure_inv (env : Env) (s : TrackerState)
    (msg : ProcessMsg) (e : String) (s' : TrackerState)
    (h : processFrame env s msg = .ok (.failure e, s')) :
    s.is_tracking = false ∧ e = "Not tracking" ∧ s' = s := by
  rcases ht : s.is_tracking with _ | _
  · rw [processFrame_idle env s msg ht] at h
    injection h with h1
    injection h1 with h2 h3
    injection h2 with h4
    exact ⟨rfl, h4.symm, h3.symm⟩
  · exfalso
    rw [processFrame] at h
    rw [ht] at h
    simp only [Bool.true_eq_false, if_false] at h
    rcases hd : decodeFrame msg.frameData msg.width msg.height with _ | fr <;>
      rw [hd] at h
    · cases h
    · rcases hp : (csrtEstimate env s fr).1 with _ | cc <;>
        rcases hl : (lkEstimate env s fr msg.width msg.height).center with _ | lc <;>
          simp only [hp, hl] at h
      · rcases hv : s.last_valid_center with _ | c <;> simp only [hv] at h <;>
          cases h
      · cases h
      · cases h
      · cases h

/-- C5: `process_frame` returns a failure result if and only if no session
is active; such a failure carries "Not tracking" and leaves every session
field unchanged, and any call on an active session whose frame decodes to
`width*height` bytes returns a success result — estimator failures are
never surfaced as call failures. -/
theorem c5_failure_iff_idle (env : Env) (s : TrackerState) (msg : ProcessMsg) :
    (s.is_tracking = false →
      processFrame env s msg = .ok (.failure "Not tracking", s)) ∧
    (∀ e s', processFrame env s msg = .ok (.failure e, s') →
      s.is_tracking = false ∧ e = "Not tracking" ∧ s' = s) ∧
    (s.is_tracking = true → msg.frameData.length = msg.width * msg.height →
      ∃ c m conf s', processFrame env s msg = .ok (.success c m conf, s')) := by
  refine ⟨fun h => processFrame_idle env s msg h,
    fun e s' h => processFrame_failure_inv env s msg e s' h,
    fun ht hlen => ?_⟩
  have hd : decodeFrame msg.frameData msg.width msg.height =
      some { width := msg.width, height := msg.height, data := msg.frameData } := by
    simp [decodeFrame, hlen]
  exact processFrame_active_success env s msg _ ht hd

/-- Witness for C5: the fresh tracker rejects `process_frame` with
"Not tracking", and an active sample session returns success even though
both estimators fail under `envNone`. -/
theorem c5_failure_iff_idle_witness :
    processFrame envNone initState pm2 = .ok (.failure "Not tracking", initState) ∧
    ∃ c m conf s',
      processFrame envNone sampleActive pm2 = .ok (.success c m conf, s') :=
  ⟨(c5_failure_iff_idle envNone initState pm2).1 (by decide),
   (c5_failure_iff_idle envNone sampleActive pm2).2.2 (by decide) (by decide)⟩

/-- C9: after a successful `start_tracking` call, `lastValidCenter` equals
the supplied seed point exactly, the frame counter and consecutive-failure
counter are 0, and the call returns success with the method identifier
"csrt" and the number of seeded flow points. -/
theorem c9_start_postconditions (env : Env) (s : TrackerState) (msg : StartMsg)
    (r : StartResult) (s' : TrackerState)
    (h : startTracking env s msg = .ok (r, s')) :
    s'.last_valid_center = some msg.trackingPoint ∧
    s'.frame_count = 0 ∧
    s'.out_of_bounds_count = 0 ∧
    s'.is_tracking = true ∧
    r.success = true ∧
    r.method = "csrt" ∧
    ∃ pts, s'.tracking_points = some pts ∧ r.pointCount = pts.length := by
  rw [startTracking] at h
  rcases hd : decodeFrame msg.frameData msg.width msg.height with _ | fr <;>
    rw [hd] at h
  · cases h
  · injection h with h1
    injection h1 with h2 h3
    subst h2
    subst h3
    exact ⟨rfl, rfl, rfl, rfl, rfl, rfl, _, rfl, rfl⟩

/-- Witness for C9: the `start_tracking` call on a 2×2 frame seeding
`(1, 1)`. -/
theorem c9_start_postconditions_witness :
    startedState.last_valid_center = some sm2.trackingPoint ∧
    startedState.frame_count = 0 ∧
    startedState.out_of_bounds_count = 0 ∧
    startedState.is_tracking = true ∧
    startedResult.success = true ∧
    startedResult.method = "csrt" ∧
    ∃ pts, startedState.tracking_points = some pts ∧
      startedResult.pointCount = pts.length :=
  c9_start_postconditions envNone initState sm2 startedResult startedState rfl

/-- C6: the timeout arm of `send_command` removes exactly the timed-out
request's pending entry, leaves every other pending call and the worker
process untouched, and fails the call with a timeout error naming the
command and the timeout bound. -/
theorem c6_send_timeout_scoped (b : BridgeState) (rid : ℕ) (cmd : String)
    (tmo : ℚ) :
    (sendTimeout b rid cmd tmo).1.inTable (.rid rid) = false ∧
    (∀ k, k ≠ .rid rid →
      (sendTimeout b rid cmd tmo).1.inTable k = b.inTable k ∧
      (sendTimeout b rid cmd tmo).1.futures k = b.futures k) ∧
    (sendTimeout b rid cmd tmo).1.processAlive = b.processAlive ∧
    (sendTimeout b rid cmd tmo).1.isReady = b.isReady ∧
    (sendTimeout b rid cmd tmo).2 =
      "Tracker command timeout (" ++ toString tmo ++ "s): " ++ cmd := by
  refine ⟨by simp [sendTimeout], fun k hk => ⟨?_, ?_⟩, rfl, rfl, rfl⟩
  · simp [sendTimeout, hk]
  · simp [sendTimeout, hk]

/-- Witness for C6: timing out request 0 on the sample bridge state. -/
theorem c6_send_timeout_scoped_witness :
    (sendTimeout cBridge 0 "process_frame" 30).1.inTable (.rid 0) = false ∧
    ((sendTimeout cBridge 0 "process_frame" 30).1.inTable .startup =
        cBridge.inTable .startup ∧
      (sendTimeout cBridge 0 "process_frame" 30).1.futures .startup =
        cBridge.futures .startup) ∧
    (sendTimeout cBridge 0 "process_frame" 30).1.processAlive =
      cBridge.processAlive ∧
    (sendTimeout cBridge 0 "process_frame" 30).2 =
      "Tracker command timeout (" ++ toString (30 : ℚ) ++ "s): process_frame" :=
  have h := c6_send_timeout_scoped cBridge 0 "process_frame" 30
  ⟨h.1, h.2.1 .startup (by decide), h.2.2.1, h.2.2.2.2⟩

/-- C7: when the worker's stdout closes with calls pending, the `finally`
block of `_read_stdout` fails every still-pending future with
"Tracker process ended", empties the pending table, marks the session not
ready, and does not touch futures that were already done or not in the
table. -/
theorem c7_worker_exit_resolves_all (b : BridgeState) :
    (∀ k, b.inTable k = true → b.futures k = some .pending →
      (readStdoutFinally b).futures k = some (.failed "Tracker process ended")) ∧
    (∀ k, (readStdoutFinally b).inTable k = false) ∧
    (readStdoutFinally b).isReady = false ∧
    (∀ k, (b.inTable k = true ∧ b.futures k = some .pending) → True) ∧
    (∀ k, ¬(b.inTable k = true ∧ b.futures k = some .pending) →
      (readStdoutFinally b).futures k = b.futures k) := by
  refine ⟨fun k h1 h2 => ?_, fun k => rfl, rfl, fun _ _ => trivial, fun k hk => ?_⟩
  · simp [readStdoutFinally, h1, h2]
  · simp only [readStdoutFinally]
    rw [if_neg hk]

/-- Witness for C7: the sample bridge state with request 0 pending. -/
theorem c7_worker_exit_resolves_all_witness :
    (readStdoutFinally cBridge).futures (.rid 0) =
      some (.failed "Tracker process ended") ∧
    (readStdoutFinally cBridge).inTable (.rid 0) = false ∧
    (readStdoutFinally cBridge).isReady = false ∧
    (readStdoutFinally cBridge).futures .startup = cBridge.futures .startup :=
  have h := c7_worker_exit_resolves_all cBridge
  ⟨h.1 (.rid 0) (by decide) (by decide), h.2.1 (.rid 0), h.2.2.1,
   h.2.2.2.2 .startup (by decide)⟩


/-- C2: on an active session, if the primary (CSRT) estimator succeeds and
the secondary does not, the returned confidence is exactly 0.9 with the
primary method tag "csrt"; if both succeed, the confidence is exactly 0.95
with the fused tag "csrt_lk_fused" and the returned center is
`0.7*csrtCenter + 0.3*lkCenter` per axis. -/
theorem c2_primary_and_fused (env : Env) (s : TrackerState) (msg : ProcessMsg)
    (fr : Frame) (c : Point) (m : String) (conf : ℚ) (s' : TrackerState)
    (cc : Point)
    (hd : decodeFrame msg.frameData msg.width msg.height = some fr)
    (hp : processFrame env s msg = .ok (.success c m conf, s'))
    (hc : (csrtEstimate env s fr).1 = some cc) :
    ((lkEstimate env s fr msg.width msg.height).center = none →
      conf = 9/10 ∧ m = "csrt" ∧ c = cc) ∧
    (∀ lc, (lkEstimate env s fr msg.width msg.height).center = some lc →
      conf = 19/20 ∧ m = "csrt_lk_fused" ∧
      c = ⟨cc.x * (7/10) + lc.x * (3/10), cc.y * (7/10) + lc.y * (3/10)⟩) := by
  rcases ht : s.is_tracking with _ | _
  · rw [processFrame_idle env s msg ht] at hp
    simp at hp
  · rw [processFrame] at hp
    rw [ht] at hp
    simp only [Bool.true_eq_false, if_false] at hp
    rw [hd] at hp
    simp only [hc] at hp
    constructor
    · intro hl
      rw [hl] at hp
      have h910 : round3 (9/10) = 9/10 := by norm_num [round3]
      rw [h910] at hp
      injection hp with h1
      injection h1 with h2 h3
      injection h2 with h4 h5 h6
      exact ⟨h6.symm, h5.symm, h4.symm⟩
    · intro lc hl
      rw [hl] at hp
      have h1920 : round3 (19/20) = 19/20 := by norm_num [round3]
      rw [h1920] at hp
      injection hp with h1
      injection h1 with h2 h3
      injection h2 with h4 h5 h6
      exact ⟨h6.symm, h5.symm, h4.symm⟩


/-- Witness for C2: the primary-only case on `sampleActive` under
`envTrackOk` (confidence 0.9, tag "csrt", center the CSRT bbox centroid
`(2, 2)`) and the fused case on `sampleActive3` (confidence 0.95, tag
"csrt_lk_fused", center `0.7*(2,2) + 0.3*(1,1) = (1.7, 1.7)`). -/
theorem c2_primary_and_fused_witness :
    ((9/10 : ℚ) = 9/10 ∧ "csrt" = "csrt" ∧ (⟨2, 2⟩ : Point) = ⟨2, 2⟩) ∧
    ((19/20 : ℚ) = 19/20 ∧ "csrt_lk_fused" = "csrt_lk_fused" ∧
      (⟨17/10, 17/10⟩ : Point) =
        ⟨(2 : ℚ) * (7/10) + 1 * (3/10), (2 : ℚ) * (7/10) + 1 * (3/10)⟩) := by
  constructor
  · have hdec : decodeFrame [0, 0, 0, 0] 2 2 = some ⟨2, 2, [0, 0, 0, 0]⟩ := by
      norm_num [decodeFrame]
    have hcs : csrtEstimate envTrackOk sampleActive ⟨2, 2, [0, 0, 0, 0]⟩ =
        (some ⟨2, 2⟩, some ⟨⟨2, 2, [0, 0, 0, 0]⟩, (0, 0, 2, 2), 0⟩) := by
      norm_num [csrtEstimate, envTrackOk, sampleActive, initState]
    have hlk : lkEstimate envTrackOk sampleActive ⟨2, 2, [0, 0, 0, 0]⟩ 2 2 =
        { center := none, survivors := [], indices := [0],
          points := some [⟨1, 1⟩] } := by
      norm_num [lkEstimate, envTrackOk, sampleActive, initState]
    have ht : sampleActive.is_tracking = true := rfl
    have hp : processFrame envTrackOk sampleActive pm2 =
        .ok (.success ⟨2, 2⟩ "csrt" (9/10), c2PostA) := by
      simp only [processFrame, c2PostA, pm2, ht, Bool.true_eq_false, if_false]
      simp only [hdec, hcs, hlk]
      norm_num [round3, periodicRefreshDue, sampleActive, initState]
    exact (c2_primary_and_fused envTrackOk sampleActive pm2 ⟨2, 2, [0, 0, 0, 0]⟩
      ⟨2, 2⟩ "csrt" (9/10) c2PostA ⟨2, 2⟩ (by norm_num [decodeFrame, pm2]) hp
      (by rw [hcs])).1
      (by show (lkEstimate envTrackOk sampleActive
          ⟨2, 2, [0, 0, 0, 0]⟩ 2 2).center = none
          rw [hlk])
  · have hdec : decodeFrame (List.replicate 16 0) 4 4 =
        some ⟨4, 4, List.replicate 16 0⟩ := by
      norm_num [decodeFrame]
    have hcs : csrtEstimate envTrackOk sampleActive3 ⟨4, 4, List.replicate 16 0⟩ =
        (some ⟨2, 2⟩, some ⟨⟨4, 4, List.replicate 16 0⟩, (0, 0, 4, 4), 0⟩) := by
      norm_num [csrtEstimate, envTrackOk, sampleActive3, initState]
    have hlk : lkEstimate envTrackOk sampleActive3 ⟨4, 4, List.replicate 16 0⟩ 4 4 =
        { center := some ⟨1, 1⟩, survivors := [⟨1, 1⟩, ⟨1, 2⟩, ⟨2, 1⟩],
          indices := [0, 1, 2], points := some [⟨1, 1⟩, ⟨1, 2⟩, ⟨2, 1⟩] } := by
      norm_num [lkEstimate, envTrackOk, sampleActive3, initState, lkLoop,
        lkLoopStep, lkCenterFn, List.insertionSort, List.orderedInsert]
    have ht : sampleActive3.is_tracking = true := rfl
    have hp : processFrame envTrackOk sampleActive3 pm4 =
        .ok (.success ⟨17/10, 17/10⟩ "csrt_lk_fused" (19/20), c2PostB) := by
      simp only [processFrame, c2PostB, pm4, ht, Bool.true_eq_false, if_false]
      simp only [hdec, hcs, hlk]
      norm_num [round3, periodicRefreshDue, sampleActive3, initState]
    exact (c2_primary_and_fused envTrackOk sampleActive3 pm4
      ⟨4, 4, List.replicate 16 0⟩ ⟨17/10, 17/10⟩ "csrt_lk_fused" (19/20) c2PostB
      ⟨2, 2⟩ (by norm_num [decodeFrame, pm4]) hp (by rw [hcs])).2 ⟨1, 1⟩
      (by show (lkEstimate envTrackOk sampleActive3
          ⟨4, 4, List.replicate 16 0⟩ 4 4).center = some ⟨1, 1⟩
          rw [hlk])

/-- Counterexample to C1 as stated: on `sampleActive` (consecutive-failure
count 0) with both estimators failing, the code increments the counter
*before* computing the confidence (tracker.py line 296 precedes line 302),
so the first consecutive failure returns confidence 0.45, not
`max(0.1, 0.5 - 0.05*0) = 0.5` as the claim's step ordering requires. -/
theorem c1_stale_fallback_counterexample :
    processFrame envNone sampleActive pm2 =
      .ok (.success ⟨1, 1⟩ "fallback_last_valid" (9/20), c1Post) ∧
    sampleActive.out_of_bounds_count = 0 ∧
    (9/20 : ℚ) ≠ max (1/10) (1/2 - (sampleActive.out_of_bounds_count : ℚ) * (1/20)) := by
  refine ⟨?_, rfl, by norm_num [sampleActive, initState]⟩
  have hdec : decodeFrame [0, 0, 0, 0] 2 2 = some ⟨2, 2, [0, 0, 0, 0]⟩ := by
    norm_num [decodeFrame]
  have hcs : csrtEstimate envNone sampleActive ⟨2, 2, [0, 0, 0, 0]⟩ =
      (none, some ⟨⟨2, 2, [0, 0, 0, 0]⟩, (0, 0, 2, 2), 0⟩) := by
    norm_num [csrtEstimate, envNone, sampleActive, initState]
  have hlk : lkEstimate envNone sampleActive ⟨2, 2, [0, 0, 0, 0]⟩ 2 2 =
      { center := none, survivors := [], indices := [0],
        points := some [⟨1, 1⟩] } := by
    norm_num [lkEstimate, envNone, sampleActive, initState]
  have ht : sampleActive.is_tracking = true := rfl
  simp only [processFrame, c1Post, pm2, ht, Bool.true_eq_false, if_false]
  simp only [hdec, hcs, hlk]
  norm_num [periodicRefreshDue, initCsrt, initLkPoints, makeRoiBbox, getRoiSize,
    pyInt, roiSlice, envNone, sampleActive, initState]

/-- C1 (amended): in the both-estimators-failed arm of `process_frame`,
the confidence is `max(0.1, 0.5 - 0.05*consecutiveFailureCount)` where the
counter has already been incremented for the current failure (the first
consecutive failure therefore yields 0.45, not 0.5), the method tag is the
stale-fallback tag "fallback_last_valid", and the returned center is
`lastValidCenter`. -/
theorem c1_amended_stale_fallback (env : Env) (s : TrackerState)
    (msg : ProcessMsg) (c : Point) (conf : ℚ) (s' : TrackerState) (c0 : Point)
    (hlvc : s.last_valid_center = some c0)
    (hp : processFrame env s msg =
      .ok (.success c "fallback_last_valid" conf, s')) :
    conf = max (1/10) (1/2 - ((s.out_of_bounds_count : ℚ) + 1) * (1/20)) ∧
    c = c0 ∧
    s'.out_of_bounds_count = s.out_of_bounds_count + 1 := by
  rcases ht : s.is_tracking with _ | _
  · rw [processFrame_idle env s msg ht] at hp
    simp at hp
  · rw [processFrame] at hp
    rw [ht] at hp
    simp only [Bool.true_eq_false, if_false] at hp
    rcases hd : decodeFrame msg.frameData msg.width msg.height with _ | fr <;>
      rw [hd] at hp
    · cases hp
    · rcases hc : (csrtEstimate env s fr).1 with _ | cc <;>
        rcases hl : (lkEstimate env s fr msg.width msg.height).center with _ | lc <;>
          simp only [hc, hl] at hp
      · rw [hlvc] at hp
        simp only [Option.getD_some] at hp
        injection hp with h1
        injection h1 with h2 h3
        injection h2 with h4 h5 h6
        refine ⟨?_, h4.symm, ?_⟩
        · rw [← h6]
          push_cast
          ring_nf
        · rw [← h3]
          exact (finishFrame_fields env fr _).2.2.2.2.2.2.2.2.1
      · simp at hp
      · simp at hp
      · simp at hp

/-- Witness for C1 (amended): the first consecutive failure on
`sampleActive` yields confidence `max(0.1, 0.5 - 0.05*1) = 0.45`, center
`lastValidCenter = (1, 1)`, and a failure counter of 1. -/
theorem c1_amended_stale_fallback_witness :
    (9/20 : ℚ) =
      max (1/10) (1/2 - ((sampleActive.out_of_bounds_count : ℚ) + 1) * (1/20)) ∧
    (⟨1, 1⟩ : Point) = ⟨1, 1⟩ ∧
    c1Post.out_of_bounds_count = sampleActive.out_of_bounds_count + 1 := by
  have hdec : decodeFrame [0, 0, 0, 0] 2 2 = some ⟨2, 2, [0, 0, 0, 0]⟩ := by
    norm_num [decodeFrame]
  have hcs : csrtEstimate envNone sampleActive ⟨2, 2, [0, 0, 0, 0]⟩ =
      (none, some ⟨⟨2, 2, [0, 0, 0, 0]⟩, (0, 0, 2, 2), 0⟩) := by
    norm_num [csrtEstimate, envNone, sampleActive, initState]
  have hlk : lkEstimate envNone sampleActive ⟨2, 2, [0, 0, 0, 0]⟩ 2 2 =
      { center := none, survivors := [], indices := [0],
        points := some [⟨1, 1⟩] } := by
    norm_num [lkEstimate, envNone, sampleActive, initState]
  have ht : sampleActive.is_tracking = true := rfl
  have hp : processFrame envNone sampleActive pm2 =
      .ok (.success ⟨1, 1⟩ "fallback_last_valid" (9/20), c1Post) := by
    simp only [processFrame, c1Post, pm2, ht, Bool.true_eq_false, if_false]
    simp only [hdec, hcs, hlk]
    norm_num [periodicRefreshDue, initCsrt, initLkPoints, makeRoiBbox, getRoiSize,
      pyInt, roiSlice, envNone, sampleActive, initState]
  exact c1_amended_stale_fallback envNone sampleActive pm2 ⟨1, 1⟩ (9/20) c1Post
    ⟨1, 1⟩ rfl hp

/-- Counterexample to C3 as stated: with the four surviving points
`(0,0), (1,1), (2,2), (10,10)` (an even survivor count, allowed since only
`minPoints = 3` is required), `_lk_center` returns the sorted element at
index `len // 2`, i.e. `(2, 2)`, while the per-axis median of the
x-coordinates `[0, 1, 2, 10]` is `1.5`; the secondary center produced by
the optical-flow block on a live session with these points is likewise
`(2, 2)`. -/
theorem c3_median_counterexample :
    (lkEstimate envTrackOk sampleActive4 ⟨16, 16, List.replicate 256 0⟩ 16 16).survivors
      = [⟨0, 0⟩, ⟨1, 1⟩, ⟨2, 2⟩, ⟨10, 10⟩] ∧
    (lkEstimate envTrackOk sampleActive4 ⟨16, 16, List.replicate 256 0⟩ 16 16).center
      = some ⟨2, 2⟩ ∧
    lkCenterFn [⟨0, 0⟩, ⟨1, 1⟩, ⟨2, 2⟩, ⟨10, 10⟩] = some ⟨2, 2⟩ ∧
    specMedian [0, 1, 2, 10] = 3/2 ∧
    (2 : ℚ) ≠ 3/2 ∧
    listMean [0, 1, 2, 10] = 13/4 := by
  refine ⟨?_, ?_, ?_, ?_, by norm_num, ?_⟩
  · norm_num [lkEstimate, envTrackOk, sampleActive4, initState, lkLoop,
      lkLoopStep]
  · norm_num [lkEstimate, envTrackOk, sampleActive4, initState, lkLoop,
      lkLoopStep, lkCenterFn, List.insertionSort, List.orderedInsert]
  · norm_num [lkCenterFn, List.insertionSort, List.orderedInsert]
  · norm_num [specMedian, List.insertionSort, List.orderedInsert]
  · norm_num [listMean]

/-- C3 (amended): whenever at least `minPoints = 3` optical-flow points
survive, the secondary center is per-axis the element at index
`⌊n/2⌋` of the sorted surviving coordinates — the exact median for odd
survivor counts (and in general an order statistic, not the mean); for even
counts it is the upper of the two middle values rather than their average. -/
theorem c3_amended_median (pts : List Point) (h3 : 3 ≤ pts.length) :
    lkCenterFn pts = some
      ⟨((pts.map Point.x).insertionSort (· ≤ ·)).getD (pts.length / 2) 0,
       ((pts.map Point.y).insertionSort (· ≤ ·)).getD (pts.length / 2) 0⟩ ∧
    (pts.length % 2 = 1 →
      lkCenterFn pts = some
        ⟨specMedian (pts.map Point.x), specMedian (pts.map Point.y)⟩) ∧
    (∀ env s fr w h, s.min_points = 3 →
      3 ≤ (lkEstimate env s fr w h).survivors.length →
      (lkEstimate env s fr w h).center =
        lkCenterFn (lkEstimate env s fr w h).survivors) := by
  refine ⟨?_, ?_, ?_⟩
  · rcases pts with _ | ⟨a, _ | ⟨b, rest⟩⟩
    · simp at h3
    · simp at h3
    · simp only [lkCenterFn, List.length_cons, List.length_map,
        List.length_insertionSort]
  · intro hodd
    rcases pts with _ | ⟨a, _ | ⟨b, rest⟩⟩
    · simp at h3
    · simp at h3
    · have hodd' : (rest.length + 1 + 1) % 2 = 1 := by simpa using hodd
      simp [lkCenterFn, specMedian, hodd', List.orderedInsert_length,
        List.length_insertionSort]
  · intro env s fr w h hmin hsurv
    rcases hpg : s.prev_gray with _ | pg <;>
      rcases htp : s.tracking_points with _ | tp <;>
        simp only [lkEstimate, hpg, htp] at hsurv ⊢
    · simp at hsurv
    · simp at hsurv
    · simp at hsurv
    · by_cases hg : s.good_points_indices.length ≥ s.min_points ∧
          fr.width = pg.width ∧ fr.height = pg.height
      · rw [if_pos hg] at hsurv ⊢
        rcases hflow : env.lkFlow pg fr tp s.lk_win with _ | flow <;>
          rw [hflow] at hsurv <;> dsimp only at hsurv ⊢
        · simp at hsurv
        · by_cases hlen :
              (lkLoop flow w h s.good_points_indices tp).1.length ≥ s.min_points
          · rw [if_pos hlen]
          · rw [if_neg hlen] at hsurv ⊢
            simp at hsurv
            rw [hmin] at hlen
            exact absurd hsurv hlen
      · rw [if_neg hg] at hsurv
        simp at hsurv

/-- Witness for C3 (amended): on the four points `(0,0),(1,1),(2,2),(10,10)`
the secondary center is the sorted element at index `4 // 2 = 2`, namely
`(2, 2)`. -/
theorem c3_amended_median_witness :
    lkCenterFn [⟨0, 0⟩, ⟨1, 1⟩, ⟨2, 2⟩, ⟨10, 10⟩] = some ⟨2, 2⟩ := by
  have h := (c3_amended_median [⟨0, 0⟩, ⟨1, 1⟩, ⟨2, 2⟩, ⟨10, 10⟩] (by norm_num)).1
  norm_num [List.insertionSort, List.orderedInsert] at h
  exact h

/-- Every successful `process_frame` call on an active session leaves the
session active, increments the frame counter by exactly one (tracker.py
line 316, after the periodic-refresh check), and leaves the configuration
fields untouched. -/
theorem processFrame_state_fields (env : Env) (s : TrackerState)
    (msg : ProcessMsg) (r : ProcResult) (s' : TrackerState)
    (ht : s.is_tracking = true)
    (hp : processFrame env s msg = .ok (r, s')) :
    s'.is_tracking = true ∧
    s'.frame_count = s.frame_count + 1 ∧
    s'.max_points = s.max_points ∧
    s'.min_points = s.min_points ∧
    s'.template_size = s.template_size ∧
    s'.quality_level = s.quality_level ∧
    s'.min_distance = s.min_distance := by
  rw [processFrame] at hp
  rw [ht] at hp
  simp only [Bool.true_eq_false, if_false] at hp
  rcases hd : decodeFrame msg.frameData msg.width msg.height with _ | fr <;>
    rw [hd] at hp
  · cases hp
  · rcases hc : (csrtEstimate env s fr).1 with _ | cc <;>
      rcases hl : (lkEstimate env s fr msg.width msg.height).center with _ | lc <;>
        rcases hv : s.last_valid_center with _ | c0 <;>
          simp only [hc, hl, hv] at hp <;>
          (injection hp with h1; injection h1 with h2 h3) <;>
          subst h3 <;>
          exact ⟨(finishFrame_fields env fr _).1, (finishFrame_fields env fr _).2.1,
            (finishFrame_fields env fr _).2.2.1,
            (finishFrame_fields env fr _).2.2.2.1,
            (finishFrame_fields env fr _).2.2.2.2.1,
            (finishFrame_fields env fr _).2.2.2.2.2.1,
            (finishFrame_fields env fr _).2.2.2.2.2.2.1⟩

/-- C4: the periodic LK re-seed fires exactly when the frame counter (read
before its end-of-call increment) is a positive multiple of 30 — never at
counter 0 — and re-seeds the flow points around `lastValidCenter`; the
counter starts at 0 on `start_tracking` and increases by exactly one per
processed frame, so the first re-seed happens during the 31st call of a
fresh session (counter value 30). -/
theorem c4_periodic_refresh (env : Env) (s : TrackerState) (msg : ProcessMsg)
    (fr : Frame) (c : Point) (m : String) (conf : ℚ) (s' : TrackerState)
    (hlvc : s.last_valid_center.isSome = true)
    (hd : decodeFrame msg.frameData msg.width msg.height = some fr)
    (hp : processFrame env s msg = .ok (.success c m conf, s')) :
    s'.frame_count = s.frame_count + 1 ∧
    (periodicRefreshDue s.frame_count s.last_valid_center = true ↔
      ∃ k, 0 < k ∧ s.frame_count = 30 * k) ∧
    ((∃ k, 0 < k ∧ s.frame_count = 30 * k) →
      ∃ cc, s'.last_valid_center = some cc ∧
        s'.tracking_points = some (initLkPoints env s.template_size s.max_points
          s.quality_level s.min_distance fr cc.x cc.y).1 ∧
        s'.good_points_indices = (initLkPoints env s.template_size s.max_points
          s.quality_level s.min_distance fr cc.x cc.y).2) ∧
    (∀ envA sA msgA rA sA', startTracking envA sA msgA = .ok (rA, sA') →
      sA'.frame_count = 0) ∧
    (∀ sB msgs t, sB.is_tracking = true → runFrames env sB msgs = .ok t →
      t.frame_count = sB.frame_count + msgs.length) := by
  have ht : s.is_tracking = true := by
    rcases htt : s.is_tracking with _ | _
    · rw [processFrame_idle env s msg htt] at hp
      simp at hp
    · rfl
  refine ⟨(processFrame_state_fields env s msg _ s' ht hp).2.1, ?_, ?_, ?_, ?_⟩
  · simp only [periodicRefreshDue, hlvc, Bool.and_true, Bool.and_eq_true,
      decide_eq_true_eq]
    constructor
    · rintro ⟨h1, h2⟩
      exact ⟨s.frame_count / 30, by omega, by omega⟩
    · rintro ⟨k, hk1, hk2⟩
      omega
  · intro hex
    have hdue0 : 0 < s.frame_count ∧ s.frame_count % 30 = 0 := by
      obtain ⟨k, hk1, hk2⟩ := hex
      omega
    rw [processFrame] at hp
    rw [ht] at hp
    simp only [Bool.true_eq_false, if_false] at hp
    rw [hd] at hp
    rcases hc : (csrtEstimate env s fr).1 with _ | cc
    · rcases hl : (lkEstimate env s fr msg.width msg.height).center with _ | lc
      · rcases hv : s.last_valid_center with _ | c0
        · rw [hv] at hlvc
          simp at hlvc
        · simp only [hc, hl, hv] at hp
          injection hp with h1
          injection h1 with h2 h3
          subst h3
          have hdue : periodicRefreshDue s.frame_count (some c0) = true := by
            simp only [periodicRefreshDue, Option.isSome_some, Bool.and_true,
              Bool.and_eq_true, decide_eq_true_eq]
            exact hdue0
          refine ⟨c0, ?_, ?_, ?_⟩
          · rw [(finishFrame_fields env fr _).2.2.2.2.2.2.2.1]
          · exact (finishFrame_refresh env fr _ c0 rfl hdue).1
          · exact (finishFrame_refresh env fr _ c0 rfl hdue).2
      · rcases hv : s.last_valid_center with _ | c0
        · rw [hv] at hlvc
          simp at hlvc
        · simp only [hc, hl, hv] at hp
          injection hp with h1
          injection h1 with h2 h3
          subst h3
          have hdue : periodicRefreshDue s.frame_count (some lc) = true := by
            simp only [periodicRefreshDue, Option.isSome_some, Bool.and_true,
              Bool.and_eq_true, decide_eq_true_eq]
            exact hdue0
          refine ⟨lc, ?_, ?_, ?_⟩
          · rw [(finishFrame_fields env fr _).2.2.2.2.2.2.2.1]
          · exact (finishFrame_refresh env fr _ lc rfl hdue).1
          · exact (finishFrame_refresh env fr _ lc rfl hdue).2
    · rcases hl : (lkEstimate env s fr msg.width msg.height).center with _ | lc
      · rcases hv : s.last_valid_center with _ | c0
        · rw [hv] at hlvc
          simp at hlvc
        · simp only [hc, hl, hv] at hp
          injection hp with h1
          injection h1 with h2 h3
          subst h3
          have hdue : periodicRefreshDue s.frame_count (some cc) = true := by
            simp only [periodicRefreshDue, Option.isSome_some, Bool.and_true,
              Bool.and_eq_true, decide_eq_true_eq]
            exact hdue0
          refine ⟨cc, ?_, ?_, ?_⟩
          · rw [(finishFrame_fields env fr _).2.2.2.2.2.2.2.1]
          · exact (finishFrame_refresh env fr _ cc rfl hdue).1
          · exact (finishFrame_refresh env fr _ cc rfl hdue).2
      · rcases hv : s.last_valid_center with _ | c0
        · rw [hv] at hlvc
          simp at hlvc
        · simp only [hc, hl, hv] at hp
          injection hp with h1
          injection h1 with h2 h3
          subst h3
          have hdue : periodicRefreshDue s.frame_count
              (some ⟨cc.x * (7/10) + lc.x * (3/10),
                cc.y * (7/10) + lc.y * (3/10)⟩) = true := by
            simp only [periodicRefreshDue, Option.isSome_some, Bool.and_true,
              Bool.and_eq_true, decide_eq_true_eq]
            exact hdue0
          refine ⟨⟨cc.x * (7/10) + lc.x * (3/10),
            cc.y * (7/10) + lc.y * (3/10)⟩, ?_, ?_, ?_⟩
          · rw [(finishFrame_fields env fr _).2.2.2.2.2.2.2.1]
          · exact (finishFrame_refresh env fr _
              ⟨cc.x * (7/10) + lc.x * (3/10), cc.y * (7/10) + lc.y * (3/10)⟩
              rfl hdue).1
          · exact (finishFrame_refresh env fr _
              ⟨cc.x * (7/10) + lc.x * (3/10), cc.y * (7/10) + lc.y * (3/10)⟩
              rfl hdue).2
  · intro envA sA msgA rA sA' hA
    rw [startTracking] at hA
    rcases hdA : decodeFrame msgA.frameData msgA.width msgA.height with _ | frA <;>
      rw [hdA] at hA
    · cases hA
    · injection hA with h1
      injection h1 with h2 h3
      subst h3
      rfl
  · intro sB msgs
    induction msgs generalizing sB with
    | nil =>
      intro t hB hrun
      rw [runFrames] at hrun
      injection hrun with h1
      subst h1
      simp
    | cons mm ms ih =>
      intro t hB hrun
      rw [runFrames] at hrun
      rcases hstep : processFrame env sB mm with e | pair <;> rw [hstep] at hrun
      · cases hrun
      · have hf := processFrame_state_fields env sB mm pair.1 pair.2 hB
          (by rw [hstep])
        have hcount := hf.2.1
        have := ih pair.2 t hf.1 hrun
        simp only [List.length_cons]
        omega

/-- Witness for C4: on `sampleActive30` (frame counter 30) the refresh
guard holds, the flow points are re-seeded around `lastValidCenter = (1,1)`,
and the counter advances to 31. -/
theorem c4_periodic_refresh_witness :
    c4Post.frame_count = sampleActive30.frame_count + 1 ∧
    (periodicRefreshDue sampleActive30.frame_count
        sampleActive30.last_valid_center = true ↔
      ∃ k, 0 < k ∧ sampleActive30.frame_count = 30 * k) ∧
    ((∃ k, 0 < k ∧ sampleActive30.frame_count = 30 * k) →
      ∃ cc, c4Post.last_valid_center = some cc ∧
        c4Post.tracking_points = some (initLkPoints envNone
          sampleActive30.template_size sampleActive30.max_points
          sampleActive30.quality_level sampleActive30.min_distance
          ⟨2, 2, [0, 0, 0, 0]⟩ cc.x cc.y).1 ∧
        c4Post.good_points_indices = (initLkPoints envNone
          sampleActive30.template_size sampleActive30.max_points
          sampleActive30.quality_level sampleActive30.min_distance
          ⟨2, 2, [0, 0, 0, 0]⟩ cc.x cc.y).2) ∧
    (∀ envA sA msgA rA sA', startTracking envA sA msgA = .ok (rA, sA') →
      sA'.frame_count = 0) ∧
    (∀ sB msgs t, sB.is_tracking = true → runFrames envNone sB msgs = .ok t →
      t.frame_count = sB.frame_count + msgs.length) := by
  have hdec : decodeFrame [0, 0, 0, 0] 2 2 = some ⟨2, 2, [0, 0, 0, 0]⟩ := by
    norm_num [decodeFrame]
  have hcs : csrtEstimate envNone sampleActive30 ⟨2, 2, [0, 0, 0, 0]⟩ =
      (none, some ⟨⟨2, 2, [0, 0, 0, 0]⟩, (0, 0, 2, 2), 0⟩) := by
    norm_num [csrtEstimate, envNone, sampleActive30, sampleActive, initState]
  have hlk : lkEstimate envNone sampleActive30 ⟨2, 2, [0, 0, 0, 0]⟩ 2 2 =
      { center := none, survivors := [], indices := [0],
        points := some [⟨1, 1⟩] } := by
    norm_num [lkEstimate, envNone, sampleActive30, sampleActive, initState]
  have ht : sampleActive30.is_tracking = true := rfl
  have hp : processFrame envNone sampleActive30 pm2 =
      .ok (.success ⟨1, 1⟩ "fallback_last_valid" (9/20), c4Post) := by
    simp only [processFrame, c4Post, pm2, ht, Bool.true_eq_false, if_false]
    simp only [hdec, hcs, hlk]
    norm_num [periodicRefreshDue, initCsrt, initLkPoints, makeRoiBbox,
      getRoiSize, pyInt, roiSlice, envNone, sampleActive30, sampleActive,
      initState]
  exact c4_periodic_refresh envNone sampleActive30 pm2 ⟨2, 2, [0, 0, 0, 0]⟩
    ⟨1, 1⟩ "fallback_last_valid" (9/20) c4Post rfl
    (by norm_num [decodeFrame, pm2]) hp

/-- `_init_lk_points` always produces a non-empty point list, equally many
indices, and (under the `goodFeaturesToTrack` contract) at most
`max 1 maxPoints` points. -/
theorem initLkPoints_spec (env : Env) (t : ℤ) (maxP : ℕ) (q d : ℚ)
    (g : Frame) (cx cy : ℚ) :
    0 < (initLkPoints env t maxP q d g cx cy).1.length ∧
    (initLkPoints env t maxP q d g cx cy).2.length =
      (initLkPoints env t maxP q d g cx cy).1.length ∧
    (GoodFeaturesBounded env →
      (initLkPoints env t maxP q d g cx cy).1.length ≤ max 1 maxP) := by
  rw [initLkPoints]
  split
  · exact ⟨by simp, by simp, fun _ => by simp⟩
  · dsimp only
    split
    · rename_i corners hg
      split
      · rename_i hpos
        refine ⟨by simpa using hpos, by simp, fun hb => ?_⟩
        simp only [List.length_map, List.length_range]
        exact le_trans (hb _ _ _ _ _ hg) (le_max_right 1 maxP)
      · exact ⟨by simp, by simp, fun _ => by simp⟩
    · exact ⟨by simp, by simp, fun _ => by simp⟩

/-- Each loop iteration appends at most one survivor, keeps the survivor
and index lists equally long, and preserves the point-array length. -/
theorem lkLoopStep_spec (flow : List (Point × Bool)) (w h : ℕ)
    (acc : List Point × List ℕ × List Point) (idx : ℕ) :
    ((lkLoopStep flow w h acc idx).1.length = acc.1.length ∧
      (lkLoopStep flow w h acc idx).2.1.length = acc.2.1.length ∨
     (lkLoopStep flow w h acc idx).1.length = acc.1.length + 1 ∧
      (lkLoopStep flow w h acc idx).2.1.length = acc.2.1.length + 1) ∧
    (lkLoopStep flow w h acc idx).2.2.length = acc.2.2.length := by
  rw [lkLoopStep]
  split
  · exact ⟨Or.inl ⟨rfl, rfl⟩, rfl⟩
  · split
    · exact ⟨Or.inl ⟨rfl, rfl⟩, rfl⟩
    · split
      · exact ⟨Or.inr ⟨by simp, by simp⟩, by simp⟩
      · exact ⟨Or.inl ⟨rfl, rfl⟩, rfl⟩

/-- Folding the loop over the index list adds at most one survivor per
index, keeps survivors and new indices equally long, and preserves the
point-array length. -/
theorem lkLoop_foldl_spec (flow : List (Point × Bool)) (w h : ℕ) :
    ∀ (idx : List ℕ) (acc : List Point × List ℕ × List Point),
      (idx.foldl (lkLoopStep flow w h) acc).1.length ≤ acc.1.length + idx.length ∧
      (idx.foldl (lkLoopStep flow w h) acc).2.1.length + acc.1.length =
        (idx.foldl (lkLoopStep flow w h) acc).1.length + acc.2.1.length ∧
      (idx.foldl (lkLoopStep flow w h) acc).2.2.length = acc.2.2.length
  | [], acc => by
    simp only [List.foldl_nil, List.length_nil]
    exact ⟨by omega, by omega, trivial⟩
  | i :: idx, acc => by
    simp only [List.foldl_cons, List.length_cons]
    have ih := lkLoop_foldl_spec flow w h idx (lkLoopStep flow w h acc i)
    have hstep := lkLoopStep_spec flow w h acc i
    rcases hstep with ⟨hstep1 | hstep1, hstep2⟩ <;>
      exact ⟨by omega, by omega, by omega⟩

/-- The secondary-estimator block never grows the valid-index list, and
its output point array (when present) has the same length as the input
array; when the input array is absent so is the output. -/
theorem lkEstimate_spec (env : Env) (s : TrackerState) (fr : Frame)
    (w h : ℕ) :
    (lkEstimate env s fr w h).indices.length ≤ s.good_points_indices.length ∧
    ((lkEstimate env s fr w h).points = s.tracking_points ∨
      ∃ l l', s.tracking_points = some l ∧
        (lkEstimate env s fr w h).points = some l' ∧ l'.length = l.length) := by
  rcases hpg : s.prev_gray with _ | pg <;>
    rcases htp : s.tracking_points with _ | tp <;>
      simp only [lkEstimate, hpg, htp]
  · exact ⟨le_refl _, Or.inl trivial⟩
  · exact ⟨le_refl _, Or.inl trivial⟩
  · exact ⟨le_refl _, Or.inl trivial⟩
  · by_cases hg : s.good_points_indices.length ≥ s.min_points ∧
        fr.width = pg.width ∧ fr.height = pg.height
    · rw [if_pos hg]
      rcases hflow : env.lkFlow pg fr tp s.lk_win with _ | flow <;> dsimp only
      · exact ⟨le_refl _, Or.inr ⟨tp, tp, rfl, rfl, rfl⟩⟩
      · rw [lkLoop]
        obtain ⟨hl1, hl2, hl3⟩ :=
          lkLoop_foldl_spec flow w h s.good_points_indices ([], [], tp)
        simp only [List.length_nil, Nat.zero_add, Nat.add_zero] at hl1 hl2 hl3
        by_cases hlen : (List.foldl (lkLoopStep flow w h) ([], [], tp)
            s.good_points_indices).1.length ≥ s.min_points
        · rw [if_pos hlen]
          dsimp only
          exact ⟨by omega, Or.inr ⟨tp, _, rfl, rfl, hl3⟩⟩
        · rw [if_neg hlen]
          dsimp only
          exact ⟨le_refl _, Or.inr ⟨tp, _, rfl, rfl, hl3⟩⟩
    · rw [if_neg hg]
      exact ⟨le_refl _, Or.inr ⟨tp, tp, rfl, rfl, rfl⟩⟩

/-- When the periodic-refresh guard does not hold, the frame tail leaves
the flow points and valid indices unchanged. -/
theorem finishFrame_no_refresh (env : Env) (fr : Frame) (s1 : TrackerState)
    (hdue : periodicRefreshDue s1.frame_count s1.last_valid_center = false) :
    (finishFrame env fr s1).tracking_points = s1.tracking_points ∧
    (finishFrame env fr s1).good_points_indices = s1.good_points_indices := by
  simp only [finishFrame, hdue, Bool.false_eq_true, if_false]
  exact ⟨by trivial, by trivial⟩

/-- The frame tail preserves the tracker invariant. -/
theorem finishFrame_inv (env : Env) (fr : Frame) (s1 : TrackerState)
    (hb : GoodFeaturesBounded env) (hinv : TrackerInv s1) :
    TrackerInv (finishFrame env fr s1) := by
  obtain ⟨hM, hm, hgi, htp15, hact⟩ := hinv
  obtain ⟨f1, f2, f3, f4, f5, f6, f7, f8, f9, f10, f11, f12, f13⟩ :=
    finishFrame_fields env fr s1
  rcases hdue : periodicRefreshDue s1.frame_count s1.last_valid_center with _ | _
  · obtain ⟨hn1, hn2⟩ := finishFrame_no_refresh env fr s1 hdue
    refine ⟨by rw [f3]; exact hM, by rw [f4]; exact hm,
      by rw [hn2]; exact hgi, ?_, ?_⟩
    · intro l hl
      rw [hn1] at hl
      exact htp15 l hl
    · intro hT
      rw [f1] at hT
      obtain ⟨ha1, lx, hlx, hlxpos⟩ := hact hT
      exact ⟨by rw [f8]; exact ha1, lx, by rw [hn1]; exact hlx, hlxpos⟩
  · rcases hlv : s1.last_valid_center with _ | c
    · rw [hlv] at hdue
      simp [periodicRefreshDue] at hdue
    · obtain ⟨hr1, hr2⟩ := finishFrame_refresh env fr s1 c hlv hdue
      obtain ⟨hi1, hi2, hi3⟩ := initLkPoints_spec env s1.template_size
        s1.max_points s1.quality_level s1.min_distance fr c.x c.y
      have h15 : (initLkPoints env s1.template_size s1.max_points
          s1.quality_level s1.min_distance fr c.x c.y).1.length ≤ 15 :=
        le_trans (hi3 hb) (by rw [hM]; decide)
      refine ⟨by rw [f3]; exact hM, by rw [f4]; exact hm,
        by rw [hr2]; omega, ?_, ?_⟩
      · intro l hl
        rw [hr1] at hl
        injection hl with h
        exact h ▸ h15
      · intro hT
        exact ⟨by rw [f8, hlv]; rfl, _, hr1, hi1⟩

/-- `process_frame` preserves the tracker invariant. -/
theorem processFrame_inv (env : Env) (s : TrackerState) (msg : ProcessMsg)
    (r : ProcResult) (s' : TrackerState) (hb : GoodFeaturesBounded env)
    (hinv : TrackerInv s) (hp : processFrame env s msg = .ok (r, s')) :
    TrackerInv s' := by
  rcases ht : s.is_tracking with _ | _
  · rw [processFrame_idle env s msg ht] at hp
    injection hp with h1
    injection h1 with h2 h3
    exact h3 ▸ hinv
  · obtain ⟨hM, hm, hgi, htp15, hact⟩ := hinv
    obtain ⟨hlvcS, l0, hl0, hl0pos⟩ := hact ht
    rw [processFrame] at hp
    rw [ht] at hp
    simp only [Bool.true_eq_false, if_false] at hp
    rcases hd : decodeFrame msg.frameData msg.width msg.height with _ | fr <;>
      rw [hd] at hp
    · cases hp
    · obtain ⟨hLKi, hLKp⟩ := lkEstimate_spec env s fr msg.width msg.height
      have hPtsBound : ∀ lp,
          (lkEstimate env s fr msg.width msg.height).points = some lp →
          lp.length ≤ 15 ∧ 0 < lp.length := by
        intro lp hlp
        rcases hLKp with heq | ⟨l, l', hsl, hpts, hlen⟩
        · rw [heq, hl0] at hlp
          injection hlp with h
          subst h
          exact ⟨htp15 l0 hl0, hl0pos⟩
        · rw [hpts] at hlp
          injection hlp with h
          subst h
          have hll0 : l = l0 := by
            rw [hsl] at hl0
            injection hl0
          rw [hlen, hll0]
          exact ⟨htp15 l0 hl0, hl0pos⟩
      have hPtsSome : ∃ lp,
          (lkEstimate env s fr msg.width msg.height).points = some lp := by
        rcases hLKp with heq | ⟨l, l', hsl, hpts, hlen⟩
        · exact ⟨l0, heq.trans hl0⟩
        · exact ⟨l', hpts⟩
      rcases hc : (csrtEstimate env s fr).1 with _ | cc
      · rcases hl : (lkEstimate env s fr msg.width msg.height).center with _ | lc
        · rcases hv : s.last_valid_center with _ | c0
          · rw [hv] at hlvcS
            simp at hlvcS
          · simp only [hc, hl, hv] at hp
            injection hp with h1
            injection h1 with h2 h3
            subst h3
            apply finishFrame_inv env fr _ hb
            obtain ⟨hi1, hi2, hi3⟩ := initLkPoints_spec env s.template_size
              s.max_points s.quality_level s.min_distance fr c0.x c0.y
            have h15 : (initLkPoints env s.template_size s.max_points
                s.quality_level s.min_distance fr c0.x c0.y).1.length ≤ 15 :=
              le_trans (hi3 hb) (by rw [hM]; decide)
            refine ⟨hM, hm, ?_, ?_, fun _ => ⟨rfl, ?_⟩⟩
            · dsimp only
              omega
            · intro l hl'
              dsimp only at hl'
              injection hl' with h
              exact h ▸ h15
            · exact ⟨_, rfl, hi1⟩
        · simp only [hc, hl] at hp
          injection hp with h1
          injection h1 with h2 h3
          subst h3
          apply finishFrame_inv env fr _ hb
          refine ⟨hM, hm, ?_, ?_, fun _ => ⟨rfl, ?_⟩⟩
          · dsimp only
            exact le_trans hLKi hgi
          · intro l hl'
            dsimp only at hl'
            exact (hPtsBound l hl').1
          · obtain ⟨lp, hlp⟩ := hPtsSome
            exact ⟨lp, by dsimp only; exact hlp, (hPtsBound lp hlp).2⟩
      · rcases hl : (lkEstimate env s fr msg.width msg.height).center with _ | lc <;>
          simp only [hc, hl] at hp <;>
          (injection hp with h1; injection h1 with h2 h3) <;>
          subst h3 <;>
          (apply finishFrame_inv env fr _ hb
           refine ⟨hM, hm, ?_, ?_, fun _ => ⟨rfl, ?_⟩⟩
           · dsimp only
             exact le_trans hLKi hgi
           · intro l hl'
             dsimp only at hl'
             exact (hPtsBound l hl').1
           · obtain ⟨lp, hlp⟩ := hPtsSome
             exact ⟨lp, by dsimp only; exact hlp, (hPtsBound lp hlp).2⟩)

/-- `start_tracking` (re)establishes the tracker invariant. -/
theorem startTracking_inv (env : Env) (s : TrackerState) (msg : StartMsg)
    (r : StartResult) (s' : TrackerState) (hb : GoodFeaturesBounded env)
    (hinv : TrackerInv s) (h : startTracking env s msg = .ok (r, s')) :
    TrackerInv s' := by
  obtain ⟨hM, hm, hgi, htp15, hact⟩ := hinv
  rw [startTracking] at h
  rcases hd : decodeFrame msg.frameData msg.width msg.height with _ | fr <;>
    rw [hd] at h
  · cases h
  · injection h with h1
    injection h1 with h2 h3
    subst h3
    obtain ⟨hi1, hi2, hi3⟩ := initLkPoints_spec env (msg.templateSize.getD 40)
      s.max_points s.quality_level s.min_distance fr msg.trackingPoint.x
      msg.trackingPoint.y
    have h15 : (initLkPoints env (msg.templateSize.getD 40) s.max_points
        s.quality_level s.min_distance fr msg.trackingPoint.x
        msg.trackingPoint.y).1.length ≤ 15 :=
      le_trans (hi3 hb) (by rw [hM]; decide)
    refine ⟨hM, hm, ?_, ?_, fun _ => ⟨rfl, ?_⟩⟩
    · dsimp only
      omega
    · intro l hl
      dsimp only at hl
      injection hl with hh
      exact hh ▸ h15
    · exact ⟨_, rfl, hi1⟩

/-- `stop_tracking` preserves the tracker invariant. -/
theorem stopTracking_inv (s : TrackerState) (hinv : TrackerInv s) :
    TrackerInv (stopTracking s) :=
  ⟨hinv.1, hinv.2.1, by simp [stopTracking], by simp [stopTracking],
   by simp [stopTracking]⟩

/-- The tracker invariant holds in every reachable state. -/
theorem reachable_inv (env : Env) (hb : GoodFeaturesBounded env)
    (s : TrackerState) (hr : Reachable env s) : TrackerInv s := by
  induction hr with
  | init =>
    refine ⟨rfl, rfl, by simp [initState], ?_, by simp [initState]⟩
    intro l hl
    simp [initState] at hl
  | start hprev hstep ih => exact startTracking_inv _ _ _ _ _ hb ih hstep
  | process hprev hstep ih => exact processFrame_inv _ _ _ _ _ hb ih hstep
  | stop hprev ih => exact stopTracking_inv _ ih
  | cleanup hprev ih => exact stopTracking_inv _ ih

/-- The all-failing environment satisfies the `goodFeaturesToTrack`
contract vacuously. -/
theorem envNone_bounded : GoodFeaturesBounded envNone := by
  intro roi mc q d pts h
  simp [envNone] at h

/-- C8: in every state reachable by any sequence of `start_tracking`,
`process_frame`, `stop_tracking` and `cleanup` calls (under the
`goodFeaturesToTrack` contract), the number of valid flow points is at
most `max_points = 15`; the point array itself also never exceeds 15
entries. -/
theorem c8_flow_point_bound (env : Env) (s : TrackerState)
    (hb : GoodFeaturesBounded env) (hr : Reachable env s) :
    s.good_points_indices.length ≤ 15 ∧
    (∀ l, s.tracking_points = some l → l.length ≤ 15) ∧
    s.max_points = 15 :=
  ⟨(reachable_inv env hb s hr).2.2.1, (reachable_inv env hb s hr).2.2.2.1,
   (reachable_inv env hb s hr).1⟩

/-- Witness for C8: the fresh tracker state under the all-failing
environment. -/
theorem c8_flow_point_bound_witness :
    initState.good_points_indices.length ≤ 15 ∧
    (∀ l, initState.tracking_points = some l → l.length ≤ 15) ∧
    initState.max_points = 15 :=
  c8_flow_point_bound envNone initState envNone_bounded Reachable.init

/-- C10: while a session is active, `lastValidCenter` is always set and
the seeded flow-point set is non-empty; consequently the frame-center
default in the both-estimators-failed arm is unreachable — the returned
center is always `lastValidCenter` — and on total estimator failure both
estimators are re-initialized at `lastValidCenter`. -/
theorem c10_active_session_invariants (env : Env) (s : TrackerState)
    (hb : GoodFeaturesBounded env) (hr : Reachable env s)
    (ht : s.is_tracking = true) :
    s.last_valid_center.isSome = true ∧
    (∃ l, s.tracking_points = some l ∧ 0 < l.length) ∧
    (∀ msg c conf s', processFrame env s msg =
        .ok (.success c "fallback_last_valid" conf, s') →
      ∃ fr cc, decodeFrame msg.frameData msg.width msg.height = some fr ∧
        s.last_valid_center = some cc ∧ c = cc ∧
        s'.csrt_tracker = some (initCsrt s.template_size fr cc.x cc.y) ∧
        s'.tracking_points = some (initLkPoints env s.template_size
          s.max_points s.quality_level s.min_distance fr cc.x cc.y).1) := by
  obtain ⟨hM, hm, hgi, htp15, hact⟩ := reachable_inv env hb s hr
  obtain ⟨hlvcS, l0, hl0, hl0pos⟩ := hact ht
  refine ⟨hlvcS, ⟨l0, hl0, hl0pos⟩, ?_⟩
  intro msg c conf s' hp
  rw [processFrame] at hp
  rw [ht] at hp
  simp only [Bool.true_eq_false, if_false] at hp
  rcases hd : decodeFrame msg.frameData msg.width msg.height with _ | fr <;>
    rw [hd] at hp
  · cases hp
  · refine ⟨fr, ?_⟩
    rcases hc : (csrtEstimate env s fr).1 with _ | cc
    · rcases hl : (lkEstimate env s fr msg.width msg.height).center with _ | lc
      · rcases hv : s.last_valid_center with _ | c0
        · rw [hv] at hlvcS
          simp at hlvcS
        · simp only [hc, hl, hv, Option.getD_some] at hp
          injection hp with h1
          injection h1 with h2 h3
          injection h2 with h4 h5 h6
          subst h3
          refine ⟨c0, rfl, rfl, h4.symm, ?_, ?_⟩
          · rw [(finishFrame_fields env fr _).2.2.2.2.2.2.2.2.2.1]
          · rcases hdue : periodicRefreshDue s.frame_count (some c0) with _ | _
            · exact ((finishFrame_no_refresh env fr _ hdue).1).trans rfl
            · exact (finishFrame_refresh env fr _ c0 rfl hdue).1
      · simp only [hc, hl] at hp
        simp at hp
    · rcases hl : (lkEstimate env s fr msg.width msg.height).center with _ | lc <;>
        simp only [hc, hl] at hp <;> simp at hp

/-- Witness for C10: the session produced by `start_tracking` on a 2×2
frame has `lastValidCenter` set and a non-empty flow-point set. -/
theorem c10_active_session_invariants_witness :
    startedState.last_valid_center.isSome = true ∧
    (∃ l, startedState.tracking_points = some l ∧ 0 < l.length) := by
  have h := c10_active_session_invariants envNone startedState envNone_bounded
    (Reachable.start Reachable.init (rfl :
      startTracking envNone initState sm2 = .ok (startedResult, startedState)))
    rfl
  exact ⟨h.1, h.2.1⟩
